import Mathlib

/-!
Verification development for the pinto-rs kernel memory-management core.

The definitions below are a shallow embedding of the Rust sources:
  * `src/kernel/src/utils/mod.rs`   — `BitSliceScan::scan` / `scan_and_flip`
  * `src/kernel/src/mem/pages.rs`   — `PageAllocator::{init, get_pages, free_pages}`, `Pool`
  * `src/kernel/src/mem/mod.rs`     — `VirtualAddress` / `PhysicalAddress` conversions
  * `src/kernel/src/mem/alloc.rs`   — `SimpleAlloc::{init, alloc, dealloc}`, `BlockList`, `Arena`

Machine integers are modelled as `Nat` (with explicit wrap-around where u64
overflow can matter), pointers as `Nat` addresses, fallible code as `Option`,
and fatal control flow as `Except`: failed assertions (`assert!`,
`unreachable!`, `unwrap`) are `Fault.panic`, and re-acquiring a
non-reentrant `spinning_top` spinlock the same call already holds —
which `Arena::to_block` and `Block::to_arena` do against the descriptor
lock held by `alloc` and by `dealloc`'s reclaim loop — spins forever,
modelled as `Fault.deadlock`.  Locks taken and released without
re-entry (the pool, memory-info and transient descriptor locks) are
no-ops in this sequential embedding.
-/

deriving instance DecidableEq for Except

namespace Pinto

/-- Embeds `PAGE_SIZE` from `mem/mod.rs` (4 KiB pages). -/
def PAGE_SIZE : Nat := 4096

/-- Embeds `PHYS_BASE` from `mem/mod.rs`. -/
def PHYS_BASE : Nat := 0xc0000000

/-- The modulus of `u64` arithmetic. -/
def MOD64 : Nat := 2 ^ 64

/-- Bit width of `usize` on the kernel's target.  The kernel only
compiles for x86_64 (`x86_64::instructions` imports in `interrupt.rs`,
`main.rs` and `timer.rs`, `InterruptDescriptorTable::load`, and the
`bootloader_api::entry_point!` boot protocol), so `UsedMapType = usize`
is 64 bits wide. -/
def USIZE_BITS : Nat := 64

/-- Embeds `size_of::<Arena>()` on the x86_64 target: `magic: u32`
(4 bytes plus 4 bytes padding), `desc: Option<&'static Spinlock<Descriptor>>`
(niche-optimised reference, 8 bytes), `num_free: usize` (8 bytes);
alignment 8, total 24 bytes. -/
def ARENA_SIZE : Nat := 24

/-- Embeds `Arena::MAGIC` from `mem/alloc.rs`. -/
def MAGIC : Nat := 0x9a548eed

/-- Rust's `usize::div_ceil`: quotient, plus one when the remainder is
non-zero. -/
def rustDivCeil (a b : Nat) : Nat :=
  a / b + (if a % b = 0 then 0 else 1)

/-- Embeds `bitvec::mem::elts::<usize>(n)`: number of 64-bit elements needed to
hold `n` bits. -/
def bitvecElts (n : Nat) : Nat :=
  n / USIZE_BITS + (if n % USIZE_BITS = 0 then 0 else 1)

/-! ## `BitSliceScan` (`utils/mod.rs`)

A `BitSlice` is embedded as a `List Bool` (`true` = bit set = page used).
`windowGet m start num` models `self.get(start..(start + num))`, which is
`None` when the range is out of bounds. -/

/-- Embeds `self.get(start..(start+num))` on a bit slice: the sub-slice, when the
range is in bounds. -/
def windowGet (m : List Bool) (start num : Nat) : Option (List Bool) :=
  if start + num ≤ m.length then some ((m.drop start).take num) else none

/-- Embeds `self.get_mut(start..(start+num))?.fill(val)`: overwrite the range with
`val`, when in bounds. -/
def fillRange (m : List Bool) (start num : Nat) (val : Bool) : Option (List Bool) :=
  if start + num ≤ m.length then
    some (m.take start ++ List.replicate num val ++ m.drop (start + num))
  else none

/-- The body of the `for i in start..=last` loop of `BitSliceScan::scan`,
iterated `cnt` times starting at index `i`.  Note: the source inspects
`self.get(start..(start + num))` — the window at `start`, not at the loop
index `i` — on every iteration; the embedding reproduces this. -/
def scanLoop (m : List Bool) (start num : Nat) (val : Bool) : Nat → Nat → Option Nat
  | _, 0 => none
  | i, cnt + 1 =>
    match windowGet m start num with
    | none => none
    | some sub =>
      let isValid := match val with
        | true => sub.all id
        | false => !(sub.any id)
      if isValid then some i else scanLoop m start num val (i + 1) cnt

/-- Embeds `BitSliceScan::scan` (`utils/mod.rs` lines 12–32). -/
def scan (m : List Bool) (start num : Nat) (val : Bool) : Option Nat :=
  if start > m.length then none
  else if start + num ≤ m.length then
    let last := m.length - num
    scanLoop m start num val start (last + 1 - start)
  else none

/-- Embeds `BitSliceScan::scan_and_flip` (`utils/mod.rs` lines 34–39): scan, then
fill the range `start..(start+num)` (again `start`, not the found index)
with `val`. -/
def scanAndFlip (m : List Bool) (start num : Nat) (val : Bool) : Option (Nat × List Bool) :=
  match scan m start num val with
  | none => none
  | some idx =>
    match fillRange m start num val with
    | none => none
    | some m' => some (idx, m')

/-- Modelled from the spec: the first-fit scan the spec describes — the
leftmost index `i` such that the `num` bits starting at `i` are all free
(`false`).  Used only to compare the source's `scan` against the spec. -/
def firstFitSpec (m : List Bool) (num : Nat) : Option Nat :=
  (List.range (m.length + 1 - num)).find? (fun i => ((m.drop i).take num).all (! ·))

/-! ## Page allocator pools (`mem/pages.rs`) -/

/-- One `Pool`: the spinlock-protected `used_map: Option<UsedMap>` (a
pointer to a bit slice, embedded as the bit list itself) and `base`
virtual address. -/
structure PoolSt where
  usedMap : Option (List Bool)
  base : Nat
deriving DecidableEq, Repr

/-- Embeds `PageAllocator::get_pages` for a chosen pool (`mem/pages.rs` lines
50–77), with the zero-fill flag having no observable effect on the
returned value.  Returns the allocated address (if any) and the updated
pool.  `num == 0` returns `none`; an uninitialised pool (`used_map` is
`None`) propagates `none` through the `?` operator; `NonNull::new` maps a
zero address to `none` (after the bitmap was already flipped). -/
def getPages (pool : PoolSt) (num : Nat) : Option Nat × PoolSt :=
  if num = 0 then (none, pool)
  else
    match pool.usedMap with
    | none => (none, pool)
    | some m =>
      match scanAndFlip m 0 num false with
      | none => (none, pool)
      | some (pageIdx, m') =>
        let pages := pool.base + PAGE_SIZE * pageIdx
        let pool' : PoolSt := { pool with usedMap := some m' }
        match (if pages = 0 then none else some pages : Option Nat) with
        | none => (none, pool')
        | some a => (some a, pool')

/-- The `PageAllocFlags` bit flags of `get_pages`. -/
structure PageFlags where
  zero : Bool
  user : Bool
deriving DecidableEq, Repr

/-- Embeds `PageAllocator::get_pages` including pool selection by the `User`
flag (`mem/pages.rs` lines 55–58). -/
def getPagesF (kernelPool userPool : PoolSt) (flags : PageFlags) (num : Nat) :
    Option Nat × PoolSt :=
  getPages (if flags.user then userPool else kernelPool) num

/-- Embeds `VirtualAddress::page_offset`. -/
def pageOffset (a : Nat) : Nat := a % PAGE_SIZE

/-- Embeds `VirtualAddress::page_num`. -/
def pageNum (a : Nat) : Nat := a / PAGE_SIZE

/-- Embeds `VirtualAddress::page_round_down`. -/
def pageRoundDown (a : Nat) : Nat := a - a % PAGE_SIZE

/-- Embeds `Pool::init` (`mem/pages.rs` lines 126–138).  `mem` is the
(uninitialised) memory the bitmap slice points at, read bit-by-bit.  The
source wraps a slice of exactly **one** `usize` element
(`from_raw_parts_mut(base as *mut UsedMapType, 1)`), so the resulting
bit slice has `USIZE_BITS` bits, whatever `numPages` is.  A bitmap that
does not fit the pool's page budget is a panic (`Except.error`). -/
def poolInit (base numPages : Nat) (mem : Nat → Bool) : Except Unit PoolSt :=
  let bitmapPages := rustDivCeil (bitvecElts numPages) PAGE_SIZE
  if bitmapPages > numPages then Except.error ()
  else
    Except.ok
      { usedMap := some ((List.range USIZE_BITS).map mem)
        base := base + bitmapPages * PAGE_SIZE }

/-- The allocatable page count `Pool::init` computes (`num_pages`
after subtracting the bitmap's pages, line 131). -/
def allocatablePages (numPages : Nat) : Nat :=
  numPages - rustDivCeil (bitvecElts numPages) PAGE_SIZE

/-! ## Address model (`mem/mod.rs`) -/

/-- The global `MemoryInfo` record. -/
structure MemInfo where
  base_address : Nat
  size : Nat
  base_virtual_address : Nat
deriving DecidableEq, Repr

/-- Wrapping `u64` subtraction. -/
def wsub64 (a b : Nat) : Nat := (a % MOD64 + (MOD64 - b % MOD64)) % MOD64

/-- Embeds `VirtualAddress::is_kernel`: `self.val >= base_virtual_address + PHYS_BASE`
(the sum taken in `u64`). -/
def isKernel (info : MemInfo) (v : Nat) : Bool :=
  (info.base_virtual_address + PHYS_BASE) % MOD64 ≤ v % MOD64

/-- Embeds `PhysicalAddress::new`: "relative to the start of the usable memory
region" — adds the recorded `base_address` (`mem/mod.rs` lines 74–79). -/
def physNew (info : MemInfo) (val : Nat) : Nat :=
  (val + info.base_address) % MOD64

/-- Embeds `VirtualAddress::to_kernel_physical` (`mem/mod.rs` lines 48–52):
asserts `is_kernel`, then builds `PhysicalAddress::new(val - base_virtual_address - PHYS_BASE)`
— note that it goes through the *relative* constructor `new`, which adds
`base_address` to the difference. -/
def toKernelPhysical (info : MemInfo) (v : Nat) : Except Unit Nat :=
  if isKernel info v then
    Except.ok (physNew info (wsub64 (wsub64 v info.base_virtual_address) PHYS_BASE))
  else Except.error ()

/-- Embeds `PhysicalAddress::to_kernel_virtual` (`mem/mod.rs` lines 96–101):
`val + base_virtual_address + PHYS_BASE`. -/
def toKernelVirtual (info : MemInfo) (p : Nat) : Nat :=
  (p + info.base_virtual_address + PHYS_BASE) % MOD64

/-! ## Heap allocator (`mem/alloc.rs`)

`SimpleAlloc` size classes and the descriptor table. -/

/-- Embeds `NUM_DESCS = (PAGE_SIZE / 32).ilog2() = 128.ilog2() = 7` (stated as
the literal so that it reduces; `NUM_DESCS_eq` checks it against
`Nat.log2`). -/
def NUM_DESCS : Nat := 7

/-- Size-class metadata set by `SimpleAlloc::init`. -/
structure DescMeta where
  blockSize : Nat
  blocksPerArena : Nat
deriving DecidableEq, Repr

/-- The loop of `SimpleAlloc::init` (`mem/alloc.rs` lines 31–40): `k`
descriptors, block size starting at `bs` and doubling;
`blocks_per_arena = (PAGE_SIZE - size_of::<Arena>()) / block_size`. -/
def initDescsGo : Nat → Nat → List DescMeta
  | 0, _ => []
  | k + 1, bs => ⟨bs, (PAGE_SIZE - ARENA_SIZE) / bs⟩ :: initDescsGo k (bs * 2)

/-- The descriptor table after `SimpleAlloc::init`: block sizes
16, 32, …, doubling, `NUM_DESCS` entries. -/
def initDescs : List DescMeta := initDescsGo NUM_DESCS 16

/-- Descriptor selection in `SimpleAlloc::alloc` (line 49):
`self.descs.iter().find(|d| d.block_size >= layout.size())`. -/
def findDesc (size : Nat) : Option DescMeta :=
  initDescs.find? (fun d => size ≤ d.blockSize)

/-! ### The free list (`BlockList`)

The intrusive singly linked list is embedded as the sequence of blocks
reachable from `head` (`chain`, so the head pointer is `chain.head?`)
together with the raw `tail` pointer (`tailPtr`), which the source lets
go stale.  A freshly appended block terminates the chain (its `next`
field is uninitialised in the source and is never read on any modelled
trace). -/

structure BlockList where
  chain : List Nat
  tailPtr : Option Nat
deriving DecidableEq, Repr

/-- Embeds `BlockList::is_empty` (lines 181–183): compares the raw `head` and
`tail` pointers — so a one-element list (head and tail both pointing at
the same block) counts as empty. -/
def blIsEmpty (l : BlockList) : Bool := l.chain.head? = l.tailPtr

/-- Writing `t.next = b` into the chain: the chain now continues with `b`
directly after `t` (detaching whatever followed `t`); if `t` is not
reachable the chain is unchanged (and `b` is lost). -/
def writeNextAppend : List Nat → Nat → Nat → List Nat
  | [], _, _ => []
  | x :: xs, t, b => if x = t then [x, b] else x :: writeNextAppend xs t b

/-- Embeds `BlockList::push_back` (lines 185–193). -/
def pushBack (l : BlockList) (b : Nat) : BlockList :=
  if l.chain.head? = none ∧ l.tailPtr = none then ⟨[b], some b⟩
  else
    match l.tailPtr with
    | some t => ⟨writeNextAppend l.chain t b, some b⟩
    | none => ⟨l.chain, some b⟩

/-- Embeds `BlockList::push_front` (lines 195–203): `b.next = head; head = b`. -/
def pushFront (l : BlockList) (b : Nat) : BlockList :=
  if l.chain.head? = none ∧ l.tailPtr = none then ⟨[b], some b⟩
  else ⟨b :: l.chain, l.tailPtr⟩

/-- Embeds `BlockList::pop_front` (lines 205–217): returns `head`; the new head
is `head.next`; `tail` is cleared only when the list becomes empty. -/
def popFront (l : BlockList) : Option Nat × BlockList :=
  match l.chain with
  | [] => (none, l)
  | h :: rest => (some h, ⟨rest, if rest.isEmpty then none else l.tailPtr⟩)

/-- Embeds `BlockList::remove` (lines 219–246): linear scan from `head` for the
first occurrence of `block` (absent: no change); a matching head is
unlinked — clearing both pointers only when the raw `head` and `tail`
pointers coincide, otherwise leaving `tail` possibly stale — and a
matching interior node is unlinked by `prev.next = v.next`. -/
def removeBlock (l : BlockList) (b : Nat) : BlockList :=
  match l.chain with
  | [] => l
  | h :: rest =>
    if b ∈ l.chain then
      if h = b then
        if l.chain.head? = l.tailPtr then ⟨[], none⟩
        else ⟨rest, l.tailPtr⟩
      else ⟨l.chain.erase b, l.tailPtr⟩
    else l

/-! ### Heap state and `alloc`/`dealloc`

The model covers the one `Descriptor` the request in hand selects (the
source's `alloc`/`dealloc` only ever touch that descriptor and the page
pool).  Arena headers written at page starts are kept in an association
list keyed by the page's address; `Arena.desc` is `some ()` when the
header back-references the selected descriptor. -/

/-- An `Arena` header (`mem/alloc.rs` lines 148–153). -/
structure ArenaHdr where
  magic : Nat
  desc : Option Unit
  numFree : Nat
deriving DecidableEq, Repr

/-- A `Descriptor` (`mem/alloc.rs` lines 127–132). -/
structure DescSt where
  blockSize : Nat
  blocksPerArena : Nat
  freeList : BlockList
deriving DecidableEq, Repr

/-- The state `alloc`/`dealloc` act on: the backing pool, the selected
descriptor, and the arena headers stamped into memory. -/
structure HeapSt where
  pool : PoolSt
  d : DescSt
  arenas : List (Nat × ArenaHdr)
deriving DecidableEq, Repr

/-- Read the arena header at address `a`. -/
def lookupArena (ars : List (Nat × ArenaHdr)) (a : Nat) : Option ArenaHdr :=
  (ars.find? (fun p => p.1 = a)).map (·.2)

/-- Write the arena header at address `a` (insert or overwrite). -/
def setArena (ars : List (Nat × ArenaHdr)) (a : Nat) (h : ArenaHdr) :
    List (Nat × ArenaHdr) :=
  match ars with
  | [] => [(a, h)]
  | (a', h') :: rest =>
    if a' = a then (a, h) :: rest else (a', h') :: setArena rest a h

/-- Outcome of a fatal control-flow event: a failed assertion
(`assert!`, `unreachable!`, `unwrap`) panics; re-locking a non-reentrant
`spinning_top` spinlock the same call already holds spins forever. -/
inductive Fault where
  | panic
  | deadlock
deriving DecidableEq, Repr

/-- The address of the `idx`-th block of the arena at `aAddr`
(`(self as *const Arena).add(1)` plus `idx * block_size`). -/
def toBlockAddr (aAddr bs idx : Nat) : Nat := aAddr + ARENA_SIZE + idx * bs

/-- Embeds `Arena::to_block` (lines 158–167).  Its very first step reads
`(blocks_per_arena, block_size)` through `self.desc.map(|d| d.lock()…)`
— locking the descriptor spinlock.  `held` says whether the current call
already holds that lock (as `alloc` and `dealloc`'s reclaim loop do), in
which case the non-reentrant lock spins forever (`Fault.deadlock`).
Otherwise the magic and index assertions run (`Fault.panic` on failure;
with no descriptor the pair defaults to `(0, 0)` and the index assertion
always fails). -/
def toBlock (held : Bool) (st : HeapSt) (hdr : ArenaHdr) (aAddr i : Nat) :
    Except Fault Nat :=
  if hdr.desc.isSome ∧ held then Except.error Fault.deadlock
  else
    let dims := match hdr.desc with
      | some _ => (st.d.blocksPerArena, st.d.blockSize)
      | none => (0, 0)
    if hdr.magic ≠ MAGIC then Except.error Fault.panic
    else if ¬ i < dims.1 then Except.error Fault.panic
    else Except.ok (toBlockAddr aAddr dims.2 i)

/-- Embeds `Block::to_arena` (lines 255–274): round the block's address down to
its page, then assert the magic value (line 263, before any lock), then
assert that a descriptor-backed block sits at a block-size multiple past
the header — an assertion that locks the arena's descriptor (line 268),
deadlocking when the caller already holds it (`held`) — and that a big
block sits immediately after the header.  Assertion failures are fatal;
reading a page that holds no stamped header finds a garbage magic value,
which likewise fails the assertion. -/
def toArena (held : Bool) (st : HeapSt) (b : Nat) : Except Fault (Nat × ArenaHdr) :=
  let aAddr := pageRoundDown b
  match lookupArena st.arenas aAddr with
  | none => Except.error Fault.panic
  | some hdr =>
    if hdr.magic ≠ MAGIC then Except.error Fault.panic
    else if hdr.desc.isSome ∧ held then Except.error Fault.deadlock
    else if ¬ (hdr.desc = none ∨
        ((b % PAGE_SIZE : Int) - (ARENA_SIZE : Int)) % (st.d.blockSize : Int) = 0) then
      Except.error Fault.panic
    else if ¬ (hdr.desc ≠ none ∨ b % PAGE_SIZE = ARENA_SIZE) then Except.error Fault.panic
    else Except.ok (aAddr, hdr)

/-- The tail of `SimpleAlloc::alloc`'s descriptor path (lines 73–78):
pop a block off the free list (null when none), then recover its arena
via `Block::to_arena` — called while the descriptor lock is held (the
guard taken at line 52 is still live), so a popped descriptor-backed
block deadlocks there — and decrement the arena's free count. -/
def popStep (st : HeapSt) : Except Fault (Option Nat × HeapSt) :=
  match popFront st.d.freeList with
  | (none, fl) => Except.ok (none, { st with d := { st.d with freeList := fl } })
  | (some b, fl) =>
    let st := { st with d := { st.d with freeList := fl } }
    match toArena true st b with
    | Except.error e => Except.error e
    | Except.ok (aAddr, hdr) =>
      Except.ok (some b,
        { st with arenas := setArena st.arenas aAddr { hdr with numFree := hdr.numFree - 1 } })

/-- The carve branch of `SimpleAlloc::alloc` (lines 53–71): draw one page
from the page allocator (null result on failure), stamp an `Arena` header
(magic, descriptor back-reference, `num_free = blocks_per_arena`), then
push each of the page's blocks onto the free list — but `to_block`
re-locks the descriptor lock the carve already holds, so the first loop
iteration deadlocks — then fall through to the pop. -/
def allocCarve (st : HeapSt) : Except Fault (Option Nat × HeapSt) :=
  match getPages st.pool 1 with
  | (none, p') => Except.ok (none, { st with pool := p' })
  | (some a, p') =>
    let hdr : ArenaHdr := ⟨MAGIC, some (), st.d.blocksPerArena⟩
    let st := { st with pool := p', arenas := setArena st.arenas a hdr }
    match (List.range st.d.blocksPerArena).foldlM
        (fun fl i => (toBlock true st hdr a i).map (pushBack fl)) st.d.freeList with
    | Except.error e => Except.error e
    | Except.ok fl => popStep { st with d := { st.d with freeList := fl } }

/-- The descriptor path of `SimpleAlloc::alloc` (lines 51–78): carve a
fresh arena when the free list reports empty, then pop a block. -/
def allocSmall (st : HeapSt) : Except Fault (Option Nat × HeapSt) :=
  if blIsEmpty st.d.freeList then allocCarve st else popStep st

/-- The big-block path of `SimpleAlloc::alloc` (lines 80–94): request
`ceil((size + size_of::<Arena>()) / PAGE_SIZE)` pages, stamp an `Arena`
header with no descriptor back-reference whose `num_free` field stores
the page count, and return — the source returns `arena.cast().as_ptr()`,
the header's own address. -/
def allocLarge (pool : PoolSt) (size : Nat) : Option (Nat × ArenaHdr) × PoolSt :=
  let numPages := rustDivCeil (size + ARENA_SIZE) PAGE_SIZE
  match getPages pool numPages with
  | (none, p') => (none, p')
  | (some a, p') => (some (a, ⟨MAGIC, none, numPages⟩), p')

/-- Embeds `PageAllocator::free_pages` for the single modelled pool
(`mem/pages.rs` lines 79–109): asserts page alignment, treats `num == 0`
as a no-op, panics (`unreachable!`) when the address is in no pool,
panics (`unwrap`) when the pool is uninitialised or the range is out of
bounds, and otherwise clears the bitmap run. -/
def freePages (pool : PoolSt) (addr num : Nat) : Except Fault PoolSt :=
  if pageOffset addr ≠ 0 then Except.error Fault.panic
  else if num = 0 then Except.ok pool
  else
    match pool.usedMap with
    | none => Except.error Fault.panic
    | some m =>
      if pageNum pool.base ≤ pageNum addr ∧ pageNum addr < pageNum pool.base + m.length then
        let pageIdx := pageNum addr - pageNum pool.base
        match fillRange m pageIdx num false with
        | none => Except.error Fault.panic
        | some m' => Except.ok { pool with usedMap := some m' }
      else Except.error Fault.panic

/-- Embeds `SimpleAlloc::dealloc` (lines 97–124): recover the arena via
`Block::to_arena` (fatal on a corrupted magic, before any lock is taken
or state is touched — at this point the descriptor lock is not yet
held).  Descriptor-backed block: take the descriptor lock, push the
block on the free list, increment the arena's free count, and once the
count reaches `blocks_per_arena` remove every block of the arena from
the free list — but the loop's `to_block` (line 116) re-locks the
descriptor lock taken at line 105, so the reclaiming deallocation
deadlocks on its first iteration.  Big block: free its `num_free`
recorded pages. -/
def dealloc (st : HeapSt) (p : Nat) : Except Fault HeapSt :=
  match toArena false st p with
  | Except.error e => Except.error e
  | Except.ok (aAddr, hdr) =>
    match hdr.desc with
    | some _ =>
      let fl := pushFront st.d.freeList p
      let hdr := { hdr with numFree := hdr.numFree + 1 }
      let st := { st with d := { st.d with freeList := fl }, arenas := setArena st.arenas aAddr hdr }
      if st.d.blocksPerArena ≤ hdr.numFree then
        match (List.range st.d.blocksPerArena).foldlM
            (fun l i => (toBlock true st hdr aAddr i).map (removeBlock l)) st.d.freeList with
        | Except.error e => Except.error e
        | Except.ok fl' => Except.ok { st with d := { st.d with freeList := fl' } }
      else Except.ok st
    | none =>
      match freePages st.pool aAddr hdr.numFree with
      | Except.error e => Except.error e
      | Except.ok pool' => Except.ok { st with pool := pool' }

/-- Run `k` consecutive `alloc` calls, collecting the returned values. -/
def allocRun : Nat → HeapSt → Except Fault (List (Option Nat) × HeapSt)
  | 0, st => Except.ok ([], st)
  | k + 1, st =>
    match allocSmall st with
    | Except.error e => Except.error e
    | Except.ok (r, st') =>
      match allocRun k st' with
      | Except.error e => Except.error e
      | Except.ok (rs, st'') => Except.ok (r :: rs, st'')

/-- Run `dealloc` over a list of pointers, in order. -/
def deallocRun : List Nat → HeapSt → Except Fault HeapSt
  | [], st => Except.ok st
  | p :: ps, st =>
    match dealloc st p with
    | Except.error e => Except.error e
    | Except.ok st' => deallocRun ps st'

/-- A fresh heap state over a pool whose (uninitialised) bitmap memory
happens to read as all-zero: base address `base`, selected size class
`⟨bs, bpa⟩`, nothing carved yet. -/
def initHeap (base bs bpa : Nat) : HeapSt :=
  { pool := ⟨some (List.replicate USIZE_BITS false), base⟩
    d := ⟨bs, bpa, ⟨[], none⟩⟩
    arenas := [] }

/-! ## Claims -/

/-- Shape of a successful `get_pages` result: the returned address is
`base + PAGE_SIZE * idx` for the index the scan produced. -/
theorem getPages_some_shape (p : PoolSt) (num a : Nat) (pl : PoolSt)
    (h : getPages p num = (some a, pl)) :
    ∃ idx, a = p.base + PAGE_SIZE * idx := by
  unfold getPages at h
  split at h
  · simp at h
  · split at h
    · simp at h
    · split at h
      · simp at h
      · dsimp only at h
        split at h
        · simp at h
        · next mm hif =>
            simp only [Prod.mk.injEq, Option.some.injEq] at h
            split at hif
            · cases hif
            · injection hif with hif
              exact ⟨_, (hif.trans h.1).symm⟩

theorem NUM_DESCS_eq : NUM_DESCS = Nat.log2 (PAGE_SIZE / 32) := by
  have h : PAGE_SIZE / 32 = 128 := by decide
  rw [h]
  rw [Nat.log2, Nat.log2, Nat.log2, Nat.log2, Nat.log2, Nat.log2, Nat.log2, Nat.log2]
  decide

/-- C1: The claim says `get_pages` performs a first-fit scan returning
the leftmost run of `count` free bits — in particular index 2 for the
bitmap `[1,1,0,0,0,1]` and a request of 3.  The code does not: the scan
loop inspects the window at `start` (not at the loop index `i`) on every
iteration, so it only ever finds a run sitting exactly at `start`; on the
spec's own example it returns no allocation where the spec's first-fit
returns index 2.  Moreover `scan_and_flip` fills the window with the value
it scanned *for* (`false` = free), so a successful allocation does not
mark the run used.  The first-fit function written from the spec's words
(`firstFitSpec`) disagrees with the code on the spec's example. -/
theorem C1_first_fit_scan_bug :
    scan [true, true, false, false, false, true] 0 3 false = none ∧
    firstFitSpec [true, true, false, false, false, true] 3 = some 2 ∧
    (getPages ⟨some [true, true, false, false, false, true], 4096⟩ 3).1 = none ∧
    scanAndFlip (List.replicate 32 false) 0 1 false = some (0, List.replicate 32 false) := by
  decide

set_option maxRecDepth 100000 in
/-- C2: The claim says the big-block path consumes
`ceil((size + sizeof(Arena)) / PAGE_SIZE)` pages, stamps an `Arena` with
no descriptor back-reference whose free-count stores the page count
(all of which the code does), and returns the address immediately
following the header.  The code instead returns the header's **own**
address (`arena.cast().as_ptr()`, `mem/alloc.rs` line 93): for a 2000-byte
request the page count is 1 and the header is stamped as claimed, but the
returned address equals the header's address, which the code's own
`Block::to_arena` assertion rejects on `dealloc`, while the address
immediately after the header (what the claim says) would be accepted. -/
theorem C2_big_alloc_returns_header_address :
    (allocLarge ⟨some (List.replicate 32 false), 4096⟩ 2000).1 =
      some (4096, ⟨MAGIC, none, 1⟩) ∧
    rustDivCeil (2000 + ARENA_SIZE) PAGE_SIZE = 1 ∧
    (4096 : Nat) ≠ 4096 + ARENA_SIZE ∧
    dealloc ⟨⟨some (List.replicate 32 false), 4096⟩, ⟨16, 254, ⟨[], none⟩⟩,
      [(4096, ⟨MAGIC, none, 1⟩)]⟩ 4096 = Except.error Fault.panic ∧
    (dealloc ⟨⟨some (List.replicate 32 false), 4096⟩, ⟨16, 254, ⟨[], none⟩⟩,
      [(4096, ⟨MAGIC, none, 1⟩)]⟩ (4096 + ARENA_SIZE)).isOk = true := by
  decide

/-- C3: The claim says `to_kernel_virtual ∘ to_kernel_physical` is the
identity on kernel virtual addresses for every recorded `base_address`.
It is not: `to_kernel_physical` feeds the absolute difference
`val - base_virtual_address - PHYS_BASE` into the *relative* constructor
`PhysicalAddress::new`, which adds `base_address` again, so the round
trip adds `base_address`.  With `base_address = 4096`,
`base_virtual_address = 0` and `v = PHYS_BASE`, the round trip returns
`v + 4096 ≠ v`; the physical round trip is off by the same amount. -/
theorem C3_address_round_trip_not_identity :
    (toKernelPhysical ⟨4096, 0, 0⟩ PHYS_BASE).map (toKernelVirtual ⟨4096, 0, 0⟩) =
      Except.ok (PHYS_BASE + 4096) ∧
    PHYS_BASE + 4096 ≠ PHYS_BASE ∧
    toKernelPhysical ⟨4096, 0, 0⟩ (toKernelVirtual ⟨4096, 0, 0⟩ 0) = Except.ok 4096 ∧
    (4096 : Nat) ≠ 0 := by
  constructor
  · rfl
  · exact ⟨by decide, by rfl, by decide⟩

/-- C4: The claim says that after initialisation a pool's used-map has
one bit per allocatable page, for every pool size.  `Pool::init` computes
and reserves the pages a full bitmap would need, but then wraps a slice of
exactly **one** `usize` element (`from_raw_parts_mut(base, 1)`), so the
bitmap always has `USIZE_BITS = 64` bits (x86_64 `usize`): for
`num_pages = 1000` the allocatable page count is 999 but the bitmap has
64 bits, whatever the initial memory contents. -/
theorem C4_bitmap_length_fixed_64 :
    ∀ mem : Nat → Bool,
      poolInit 4096 1000 mem =
        Except.ok ⟨some ((List.range USIZE_BITS).map mem), 8192⟩ ∧
      ((List.range USIZE_BITS).map mem).length = 64 ∧
      allocatablePages 1000 = 999 ∧ (64 : Nat) ≠ 999 := by
  intro mem
  refine ⟨?_, by simp [USIZE_BITS], by decide, by decide⟩
  rfl

set_option maxRecDepth 100000 in
/-- C5: The claim describes what the free list holds after a sequence of
successful same-class allocations and their deallocations.  No such
sequence exists: `Arena::to_block` (alloc.rs:160) and `Block::to_arena`
(alloc.rs:268) re-lock the descriptor's non-reentrant spinlock while
`alloc` (guard taken at alloc.rs:52, still live at lines 68 and 76) and
`dealloc`'s reclaim loop (guard at alloc.rs:105, `to_block` at line 116)
already hold it, so every small allocation spins forever — in the carve
loop on a fresh heap, or at the post-pop `to_arena` when the free list
is non-empty — and the deallocation that brings an arena's free count to
`blocks_per_arena` hangs in the reclaim loop.  A deallocation that does
not reach the reclaim threshold still completes.  (Block addresses for
the 1024-byte class, arena at 4096: 4120, 5144, 6168.) -/
theorem C5_allocation_deadlocks :
    allocRun 1 (initHeap 4096 1024 3) = Except.error Fault.deadlock ∧
    allocSmall ⟨⟨some (List.replicate USIZE_BITS false), 4096⟩,
      ⟨1024, 3, ⟨[5144, 6168], some 6168⟩⟩, [(4096, ⟨MAGIC, some (), 1⟩)]⟩ =
      Except.error Fault.deadlock ∧
    dealloc ⟨⟨some (List.replicate USIZE_BITS false), 4096⟩,
      ⟨1024, 3, ⟨[5144, 6168], some 6168⟩⟩, [(4096, ⟨MAGIC, some (), 2⟩)]⟩ 4120 =
      Except.error Fault.deadlock ∧
    dealloc ⟨⟨some (List.replicate USIZE_BITS false), 4096⟩,
      ⟨1024, 3, ⟨[6168], some 6168⟩⟩, [(4096, ⟨MAGIC, some (), 1⟩)]⟩ 4120 =
      Except.ok ⟨⟨some (List.replicate USIZE_BITS false), 4096⟩,
        ⟨1024, 3, ⟨[4120, 6168], some 6168⟩⟩, [(4096, ⟨MAGIC, some (), 2⟩)]⟩ := by
  decide

set_option maxRecDepth 100000 in
/-- C6: `alloc` selects the descriptor with
`descs.iter().find(|d| d.block_size >= layout.size())`; since `init` fills
the table with strictly increasing block sizes 16, 32, …, 1024, the first
match is the smallest fitting class.  For every request size that fits
some class (≤ 1024), the selected descriptor's block size is the least
block size ≥ the request; in particular 20 bytes selects the 32-byte
class (with 127 blocks per arena), not the 16-byte one. -/
theorem C6_smallest_fitting_descriptor :
    (∀ size : Nat, size ≤ 1024 →
      ∃ d, findDesc size = some d ∧ size ≤ d.blockSize ∧
        ∀ d' ∈ initDescs, size ≤ d'.blockSize → d.blockSize ≤ d'.blockSize) ∧
    findDesc 20 = some ⟨32, 127⟩ ∧ findDesc 20 ≠ some ⟨16, 254⟩ := by
  refine ⟨?_, by decide, by decide⟩
  intro size hsize
  have H : ∀ s : Nat, s ≤ 1024 →
      (findDesc s).isSome = true ∧
      s ≤ ((findDesc s).getD ⟨0, 0⟩).blockSize ∧
      ∀ d' ∈ initDescs, s ≤ d'.blockSize →
        ((findDesc s).getD ⟨0, 0⟩).blockSize ≤ d'.blockSize := by
    decide
  obtain ⟨h1, h2, h3⟩ := H size hsize
  cases hfd : findDesc size with
  | none => rw [hfd] at h1; cases h1
  | some d =>
    rw [hfd] at h2 h3
    exact ⟨d, rfl, h2, h3⟩

/-- Witness for C6 at the 20-byte request: some descriptor is selected,
it fits, and it is minimal among fitting descriptors. -/
theorem C6_smallest_fitting_descriptor_witness :
    ∃ d, findDesc 20 = some d ∧ 20 ≤ d.blockSize ∧
      ∀ d' ∈ initDescs, 20 ≤ d'.blockSize → d.blockSize ≤ d'.blockSize :=
  C6_smallest_fitting_descriptor.1 20 (by decide)

/-- C7: Deallocating a pointer whose containing arena's magic field
differs from `Arena::MAGIC` hits the fatal assertion in `Block::to_arena`
— the very first step of `dealloc` — so `dealloc` panics without
producing any successor state: no free list, arena or bitmap state is
modified. -/
theorem C7_bad_magic_is_fatal :
    ∀ (st : HeapSt) (p : Nat) (hdr : ArenaHdr),
      lookupArena st.arenas (pageRoundDown p) = some hdr →
      hdr.magic ≠ MAGIC →
      dealloc st p = Except.error Fault.panic := by
  intro st p hdr hlook hmagic
  simp [dealloc, toArena, hlook, hmagic]

/-- Witness for C7: a concrete state whose arena header magic was
overwritten with 0; `dealloc` of a block in that arena panics. -/
theorem C7_bad_magic_is_fatal_witness :
    dealloc ⟨⟨some (List.replicate 32 false), 4096⟩, ⟨16, 254, ⟨[], none⟩⟩,
      [(4096, ⟨0, some (), 3⟩)]⟩ 4120 = Except.error Fault.panic :=
  C7_bad_magic_is_fatal _ 4120 ⟨0, some (), 3⟩ (by decide) (by decide)

/-- C8: For every flags value and count, `get_pages` either returns a
page-aligned address (whenever the selected pool's base is page-aligned)
or the no-allocation sentinel `None`; it returns `None` for `count == 0`
and when the bitmap scan finds no sufficient free run — and the embedded
function is total, so exhaustion never panics. -/
theorem C8_get_pages_sentinel :
    ∀ (kernelPool userPool : PoolSt) (flags : PageFlags) (num : Nat),
      (num = 0 →
        getPagesF kernelPool userPool flags num =
          (none, if flags.user then userPool else kernelPool)) ∧
      (∀ m, (if flags.user then userPool else kernelPool).usedMap = some m →
        scan m 0 num false = none →
        (getPagesF kernelPool userPool flags num).1 = none) ∧
      ((if flags.user then userPool else kernelPool).base % PAGE_SIZE = 0 →
        ∀ a, (getPagesF kernelPool userPool flags num).1 = some a →
          a % PAGE_SIZE = 0) := by
  intro kernelPool userPool flags num
  refine ⟨fun h0 => ?_, fun m hm hscan => ?_, fun hb a ha => ?_⟩
  · unfold getPagesF getPages
    rw [if_pos h0]
  · by_cases h0 : num = 0
    · simp [getPagesF, getPages, h0]
    · simp [getPagesF, getPages, h0, hm, scanAndFlip, hscan]
  · rcases hgp : getPages (if flags.user then userPool else kernelPool) num with ⟨r, pl⟩
    rw [getPagesF, hgp] at ha
    simp only at ha
    rw [ha] at hgp
    obtain ⟨idx, hidx⟩ := getPages_some_shape _ _ _ _ hgp
    rw [hidx]
    simp only [PAGE_SIZE] at hb ⊢
    omega

/-- Witness for C8 at concrete pools: a zero count yields the sentinel
with the pool unchanged, a full bitmap yields the sentinel, and a
successful allocation from an aligned pool is page-aligned. -/
theorem C8_get_pages_sentinel_witness :
    getPagesF ⟨some [false], 4096⟩ ⟨none, 0⟩ ⟨false, false⟩ 0 =
      (none, ⟨some [false], 4096⟩) ∧
    (getPagesF ⟨some [true, true], 4096⟩ ⟨none, 0⟩ ⟨false, false⟩ 1).1 = none ∧
    (getPagesF ⟨some [false], 4096⟩ ⟨none, 0⟩ ⟨false, false⟩ 1).1 = some 4096 ∧
    (4096 : Nat) % PAGE_SIZE = 0 := by
  refine ⟨(C8_get_pages_sentinel ⟨some [false], 4096⟩ ⟨none, 0⟩ ⟨false, false⟩ 0).1 rfl,
    (C8_get_pages_sentinel ⟨some [true, true], 4096⟩ ⟨none, 0⟩ ⟨false, false⟩ 1).2.1
      [true, true] rfl (by decide), by decide,
    (C8_get_pages_sentinel ⟨some [false], 4096⟩ ⟨none, 0⟩ ⟨false, false⟩ 1).2.2
      (by decide) 4096 (by decide)⟩

/-- C9: `BlockList::is_empty` tests `head == tail`, so a one-element
free list (head and tail both point at the single block) reports empty,
and `alloc` takes the carve branch — drawing a fresh page for a new
arena — even though a free block is available. -/
theorem C9_singleton_list_reports_empty :
    ∀ (st : HeapSt) (b : Nat),
      st.d.freeList = ⟨[b], some b⟩ →
      st.d.freeList.chain ≠ [] ∧
      blIsEmpty st.d.freeList = true ∧
      allocSmall st = allocCarve st := by
  intro st b h
  refine ⟨by rw [h]; simp, ?_, ?_⟩
  · rw [h]; simp [blIsEmpty]
  · unfold allocSmall
    rw [h]
    simp [blIsEmpty]

/-- Witness for C9: in a concrete state whose free list holds the single
block 6156 and whose pool is fresh, `alloc` reports the list empty and
goes to the carve branch. -/
theorem C9_singleton_list_reports_empty_witness :
    (⟨⟨some (List.replicate 32 false), 4096⟩, ⟨1024, 3, ⟨[6156], some 6156⟩⟩,
      [(4096, ⟨MAGIC, some (), 1⟩)]⟩ : HeapSt).d.freeList.chain ≠ [] ∧
    blIsEmpty (⟨⟨some (List.replicate 32 false), 4096⟩, ⟨1024, 3, ⟨[6156], some 6156⟩⟩,
      [(4096, ⟨MAGIC, some (), 1⟩)]⟩ : HeapSt).d.freeList = true ∧
    allocSmall ⟨⟨some (List.replicate 32 false), 4096⟩, ⟨1024, 3, ⟨[6156], some 6156⟩⟩,
      [(4096, ⟨MAGIC, some (), 1⟩)]⟩ =
    allocCarve ⟨⟨some (List.replicate 32 false), 4096⟩, ⟨1024, 3, ⟨[6156], some 6156⟩⟩,
      [(4096, ⟨MAGIC, some (), 1⟩)]⟩ :=
  C9_singleton_list_reports_empty _ 6156 rfl

/-- C10: Calling `get_pages` before the selected pool is initialised
(its `used_map` still `None`) returns the no-allocation sentinel through
the `?` operator, without panicking and with the pool state unchanged. -/
theorem C10_uninitialised_pool_returns_none :
    ∀ (pool : PoolSt) (num : Nat),
      pool.usedMap = none → getPages pool num = (none, pool) := by
  intro pool num h
  unfold getPages
  rw [h]
  split <;> rfl

/-- Witness for C10 at a concrete uninitialised pool. -/
theorem C10_uninitialised_pool_returns_none_witness :
    getPages ⟨none, 4096⟩ 3 = (none, ⟨none, 4096⟩) :=
  C10_uninitialised_pool_returns_none ⟨none, 4096⟩ 3 rfl

end Pinto
